import Mathlib

/-!
Shallow embedding of the goal-allocation accounting engine
(src-core/src/goals: goals_model.rs, goals_repository.rs, goals_service.rs).

Currency and percentage values (Rust f64) are modelled as rationals;
the i32 legacy percent field as Int; dates as strings compared
lexicographically, exactly as the Rust code compares &str and as SQLite
compares TEXT columns. The SQLite store behind the diesel repository is
modelled as an explicit state (lists of goals and allocations); each
repository query is the pure function on that state that its SQL performs.
Fallible service functions return an Except over the error type mirroring
crate::errors::Error; formatted error strings are modelled as structured
messages carrying exactly the data interpolated into the Rust format string.
-/

namespace WealthVn

/-- Structured rendering of the format strings used in
crate::errors::ValidationError::InvalidInput messages. Each constructor
carries the values the Rust code interpolates into the message. -/
inductive ErrMsg where
  /-- format in validate_allocation_conflicts: "Total allocation {:.1}% exceeds 100% on account {} during this period" -/
  | TotalAllocationExceedsDuringPeriod (total_percent : ℚ) (account_id : String)
  /-- format in calculate_goal_progress_on_date: "Goal must have a start_date" -/
  | GoalMustHaveStartDate
  /-- format in validate_unallocated_balance: "Allocation amount $\x7b\x7d exceeds available unallocated balance $\x7b:.2\x7d" -/
  | AllocationAmountExceedsUnallocated (allocation_amount unallocated : ℚ)
  /-- format in validate_allocation_percentages: "Total allocation percentage {:.1}% exceeds 100% on account {}" -/
  | TotalAllocationPercentageExceeds (total_percent : ℚ) (account_id : String)
  /-- format in validate_historical_allocation: "On {}, total allocation ${:.2} would exceed account value ${:.2}" -/
  | HistoricalAllocationExceedsValue (date : String) (total account_value : ℚ)
deriving DecidableEq, Repr

/-- Mirror of crate::errors::ValidationError (the variant used by this module). -/
inductive ValidationError where
  | InvalidInput (msg : ErrMsg)
deriving DecidableEq, Repr

/-- Mirror of crate::errors::Error (the variant used by this module). -/
inductive Error where
  | Validation (e : ValidationError)
deriving DecidableEq, Repr

/-- Mirror of goals_model.rs struct Goal. -/
structure Goal where
  id : String
  title : String
  description : Option String
  target_amount : ℚ
  is_achieved : Bool
  target_return_rate : Option ℚ
  due_date : Option String
  monthly_investment : Option ℚ
  start_date : Option String
  initial_actual_value : Option ℚ
deriving DecidableEq, Repr

/-- Mirror of goals_model.rs struct GoalsAllocation. percent_allocation is the
deprecated integer percent; start_date and end_date are the deprecated date
range; allocation_percentage, allocation_amount, init_amount and
allocation_date are the current hybrid-scheme fields. -/
structure GoalsAllocation where
  id : String
  percent_allocation : Int
  goal_id : String
  account_id : String
  start_date : Option String
  end_date : Option String
  init_amount : ℚ
  allocation_amount : ℚ
  allocation_percentage : ℚ
  allocation_date : Option String
deriving DecidableEq, Repr

/-- Mirror of goal_progress_model AllocationDetail, as constructed in
calculate_goal_progress_on_date (goals_service.rs lines 132-139). -/
structure AllocationDetail where
  account_id : String
  percent_allocation : Int
  account_value_at_goal_start : ℚ
  account_current_value : ℚ
  account_growth : ℚ
  allocated_growth : ℚ
deriving DecidableEq, Repr

/-- Mirror of goal_progress_model GoalProgressSnapshot, as constructed in
calculate_goal_progress_on_date (goals_service.rs lines 142-150). -/
structure GoalProgressSnapshot where
  goal_id : String
  goal_title : String
  query_date : String
  init_value : ℚ
  current_value : ℚ
  growth : ℚ
  allocation_details : List AllocationDetail
deriving DecidableEq, Repr

/-- The SQLite store behind GoalRepository: the goals table and the
goals_allocation table as lists of rows. -/
structure Store where
  goals : List Goal
  allocations : List GoalsAllocation
deriving DecidableEq, Repr

/-- Lexicographic order on date strings, as Rust compares &str byte-wise and
SQLite compares TEXT: character-list lexicographic order (identical on the
ASCII YYYY-MM-DD dates the code handles). -/
def str_le (a b : String) : Bool := decide (a.toList ≤ b.toList)

/-- GoalRepository::load_goals_impl: select all rows of the goals table. -/
def load_goals (s : Store) : List Goal := s.goals

/-- GoalRepository::load_allocations_for_non_achieved_goals_impl: the inner
join of goals_allocation with goals on goal_id, filtered to is_achieved =
false. With goal ids unique the join is the filter keeping the allocations
whose goal exists and is not achieved. -/
def load_allocations_for_non_achieved_goals (s : Store) : List GoalsAllocation :=
  s.allocations.filter (fun a =>
    s.goals.any (fun g => g.id == a.goal_id && !g.is_achieved))

/-- GoalRepository::get_allocations_for_account_on_date: SQL filters
account_id = given, start_date <= query_date, end_date >= query_date. A NULL
start_date or end_date fails its SQL comparison, so rows with either date
missing are excluded. -/
def get_allocations_for_account_on_date (s : Store) (account_id query_date : String) :
    List GoalsAllocation :=
  s.allocations.filter (fun a =>
    a.account_id == account_id &&
      (match a.start_date, a.end_date with
       | some st, some en => str_le st query_date && str_le query_date en
       | _, _ => false))

/-- GoalRepository::get_allocations_for_account_impl: SQL filters
account_id = given. -/
def get_allocations_for_account (s : Store) (account_id : String) :
    List GoalsAllocation :=
  s.allocations.filter (fun a => a.account_id == account_id)

/-- Loop body of GoalService::validate_allocation_percentages
(goals_service.rs lines 227-235): skip the excluded allocation, otherwise add
its allocation_percentage to the running total. -/
def percentages_step (exclude_allocation_id : Option String)
    (total_percent : ℚ) (allocation : GoalsAllocation) : ℚ :=
  match exclude_allocation_id with
  | some exclude_id =>
      if allocation.id = exclude_id then total_percent
      else total_percent + allocation.allocation_percentage
  | none => total_percent + allocation.allocation_percentage

/-- GoalService::validate_allocation_percentages (goals_service.rs lines
217-249). -/
def validate_allocation_percentages (s : Store) (account_id : String)
    (new_percentage : ℚ) (exclude_allocation_id : Option String) :
    Except Error Unit :=
  let allocations := get_allocations_for_account s account_id
  let total_percent :=
    allocations.foldl (percentages_step exclude_allocation_id) new_percentage
  if total_percent > 100 then
    .error (.Validation (.InvalidInput
      (.TotalAllocationPercentageExceeds total_percent account_id)))
  else
    .ok ()

/-- GoalService::get_unallocated_balance (goals_service.rs lines 178-191). -/
def get_unallocated_balance (s : Store) (account_id : String)
    (current_account_value : ℚ) : ℚ :=
  let allocations := get_allocations_for_account s account_id
  let total_allocated := (allocations.map (·.allocation_amount)).sum
  max (current_account_value - total_allocated) 0

/-- GoalService::validate_unallocated_balance (goals_service.rs lines
194-214). -/
def validate_unallocated_balance (s : Store) (account_id : String)
    (allocation_amount current_account_value : ℚ) : Except Error Unit :=
  let unallocated := get_unallocated_balance s account_id current_account_value
  if allocation_amount > unallocated then
    .error (.Validation (.InvalidInput
      (.AllocationAmountExceedsUnallocated allocation_amount unallocated)))
  else
    .ok ()

/-- Loop body of GoalService::validate_historical_allocation
(goals_service.rs lines 301-310): add init_amount of each allocation whose
allocation_date is present and not after the given date. -/
def historical_step (allocation_date : String) (acc : ℚ)
    (alloc : GoalsAllocation) : ℚ :=
  match alloc.allocation_date with
  | some alloc_date =>
      if str_le alloc_date allocation_date then acc + alloc.init_amount else acc
  | none => acc

/-- GoalService::validate_historical_allocation (goals_service.rs lines
288-328). -/
def validate_historical_allocation (s : Store) (account_id : String)
    (allocation_amount : ℚ) (allocation_date : String)
    (account_value_at_allocation_date : ℚ) : Except Error Unit :=
  let allocations := get_allocations_for_account s account_id
  let total_at_date := allocations.foldl (historical_step allocation_date) 0
  let total_allocated_at_date := total_at_date + allocation_amount
  if total_allocated_at_date > account_value_at_allocation_date then
    .error (.Validation (.InvalidInput
      (.HistoricalAllocationExceedsValue allocation_date
        total_allocated_at_date account_value_at_allocation_date)))
  else
    .ok ()

/-- Loop body of GoalService::validate_allocation_conflicts
(goals_service.rs lines 43-62): skip allocations on other accounts or
without both deprecated dates; on overlap, skip the excluded allocation and
otherwise add its allocation_percentage. -/
def conflicts_step (account_id new_start_date new_end_date : String)
    (exclude_allocation_id : Option String) (acc : ℚ)
    (allocation : GoalsAllocation) : ℚ :=
  if allocation.account_id ≠ account_id then acc
  else
    match allocation.start_date, allocation.end_date with
    | some alloc_start, some alloc_end =>
        if str_le alloc_start new_end_date && str_le new_start_date alloc_end then
          match exclude_allocation_id with
          | some exclude_id =>
              if allocation.id = exclude_id then acc
              else acc + allocation.allocation_percentage
          | none => acc + allocation.allocation_percentage
        else acc
    | _, _ => acc

/-- GoalService::validate_allocation_conflicts (goals_service.rs lines
27-76). -/
def validate_allocation_conflicts (s : Store) (account_id : String)
    (new_start_date new_end_date : String) (new_percent_allocation : Int)
    (exclude_allocation_id : Option String) : Except Error Unit :=
  let allocations := load_allocations_for_non_achieved_goals s
  let conflicting_percent :=
    allocations.foldl
      (conflicts_step account_id new_start_date new_end_date exclude_allocation_id)
      ((new_percent_allocation : ℚ))
  if conflicting_percent > 100 then
    .error (.Validation (.InvalidInput
      (.TotalAllocationExceedsDuringPeriod conflicting_percent account_id)))
  else
    .ok ()

/-- GoalService::calculate_allocation_growth (goals_service.rs lines
253-261). -/
def calculate_allocation_growth (allocation_percentage : ℚ)
    (account_value_start account_value_end : ℚ) : ℚ :=
  let account_growth := account_value_end - account_value_start
  account_growth * (allocation_percentage / 100)

/-- GoalService::calculate_segmented_growth (goals_service.rs lines
265-275): map calculate_allocation_growth over the segments and sum. -/
def calculate_segmented_growth (allocation_values : List (ℚ × ℚ × ℚ)) : ℚ :=
  (allocation_values.map (fun t =>
    calculate_allocation_growth t.1 t.2.1 t.2.2)).sum

/-- GoalService::calculate_allocation_current_value (goals_service.rs lines
278-284). -/
def calculate_allocation_current_value (allocation : GoalsAllocation)
    (allocation_growth : ℚ) : ℚ :=
  allocation.init_amount + allocation_growth

/-- Per-allocation detail built in the body of the loop of
GoalService::calculate_goal_progress_on_date (goals_service.rs lines
115-139). The HashMap value lookups default missing accounts to 0.0; the
maps are modelled as association lists. -/
def allocation_detail_of (account_values_at_goal_start
    current_account_values : List (String × ℚ))
    (allocation : GoalsAllocation) : AllocationDetail :=
  let account_value_at_start :=
    (account_values_at_goal_start.lookup allocation.account_id).getD 0
  let current_account_value :=
    (current_account_values.lookup allocation.account_id).getD 0
  let account_growth := current_account_value - account_value_at_start
  let allocation_percent := (allocation.percent_allocation : ℚ) / 100
  let allocated_growth := account_growth * allocation_percent
  { account_id := allocation.account_id
    percent_allocation := allocation.percent_allocation
    account_value_at_goal_start := account_value_at_start
    account_current_value := current_account_value
    account_growth := account_growth
    allocated_growth := allocated_growth }

/-- Loop body of GoalService::calculate_goal_progress_on_date: accumulate
total_growth and push the detail record. -/
def progress_step (account_values_at_goal_start
    current_account_values : List (String × ℚ))
    (acc : ℚ × List AllocationDetail) (allocation : GoalsAllocation) :
    ℚ × List AllocationDetail :=
  let d := allocation_detail_of account_values_at_goal_start
    current_account_values allocation
  (acc.1 + d.allocated_growth, acc.2 ++ [d])

/-- GoalService::calculate_goal_progress_on_date (goals_service.rs lines
84-151). Note the repository query at line 104 is invoked with the empty
string as account_id. -/
def calculate_goal_progress_on_date (s : Store) (goal : Goal)
    (account_values_at_goal_start current_account_values : List (String × ℚ))
    (query_date : String) : Except Error GoalProgressSnapshot :=
  match goal.start_date with
  | none =>
      .error (.Validation (.InvalidInput .GoalMustHaveStartDate))
  | some _ =>
      let active_allocations := get_allocations_for_account_on_date s "" query_date
      let goal_allocations := active_allocations.filter (fun a => a.goal_id == goal.id)
      let acc := goal_allocations.foldl
        (progress_step account_values_at_goal_start current_account_values) (0, [])
      .ok { goal_id := goal.id
            goal_title := goal.title
            query_date := query_date
            init_value := 0
            current_value := acc.1
            growth := acc.1
            allocation_details := acc.2 }

/-- GoalService::get_goal_allocations_on_date (goals_service.rs lines
154-174): the allocations of the goal whose deprecated date window contains
the query date, among allocations of non-achieved goals. -/
def get_goal_allocations_on_date (s : Store) (goal_id query_date : String) :
    List GoalsAllocation :=
  let all_allocations := load_allocations_for_non_achieved_goals s
  all_allocations.filter (fun a =>
    if a.goal_id != goal_id then false
    else
      match a.start_date, a.end_date with
      | some st, some en => str_le st query_date && str_le query_date en
      | _, _ => false)

/-- HashMap built at goals_service.rs lines 352-355: collect on (id, goal)
pairs, so on duplicate ids the last goal in iteration order wins; get is the
lookup of that map. -/
def goal_map_get (goals : List Goal) (gid : String) : Option Goal :=
  (goals.filter (fun g => g.id == gid)).getLast?

/-- Backfill step of GoalServiceTrait::upsert_goal_allocations for one
allocation (goals_service.rs lines 357-368): when the parent goal is found,
fill a missing start_date from the goal start_date and a missing end_date
from the goal due_date; otherwise leave the allocation untouched. -/
def backfill_allocation (lookup : String → Option Goal)
    (allocation : GoalsAllocation) : GoalsAllocation :=
  match lookup allocation.goal_id with
  | some goal =>
      let a1 :=
        if allocation.start_date = none then
          { allocation with start_date := goal.start_date }
        else allocation
      if a1.end_date = none then { a1 with end_date := goal.due_date } else a1
  | none => allocation

/-- One iteration of the write loop of
GoalRepository::upsert_goal_allocations (goals_repository.rs lines 171-188):
diesel insert with on_conflict(id) do_update, i.e. replace the row with the
conflicting id if present, append otherwise. -/
def upsert_one_allocation (rows : List GoalsAllocation)
    (allocation : GoalsAllocation) : List GoalsAllocation :=
  if rows.any (fun b => b.id == allocation.id) then
    rows.map (fun b => if b.id == allocation.id then allocation else b)
  else
    rows ++ [allocation]

/-- GoalRepository::upsert_goal_allocations: write every allocation with
insert-or-update keyed by id; every statement affects one row, so the
returned count is the batch length. -/
def repo_upsert_goal_allocations (s : Store)
    (allocations : List GoalsAllocation) : Store × Nat :=
  ({ s with allocations := allocations.foldl upsert_one_allocation s.allocations },
   allocations.length)

/-- GoalServiceTrait::upsert_goal_allocations for GoalService
(goals_service.rs lines 349-371): load the goals, backfill missing
allocation dates from the goal map, then delegate to the repository
upsert. -/
def upsert_goal_allocations (s : Store) (allocations : List GoalsAllocation) :
    Store × Nat :=
  let goals := load_goals s
  let backfilled := allocations.map (backfill_allocation (goal_map_get goals))
  repo_upsert_goal_allocations s backfilled

/-! ### Spec-side characterisations of the accumulation loops -/

/-- Allocations counted by the loop of validate_allocation_percentages:
every allocation except the one identified by exclude_allocation_id. -/
def percentages_kept (exclude_allocation_id : Option String)
    (a : GoalsAllocation) : Bool :=
  match exclude_allocation_id with
  | some exclude_id => a.id != exclude_id
  | none => true

/-- Sum of allocation_percentage over all of the account's stored
allocations other than the excluded one, with no date filtering. -/
def percentages_other_sum (s : Store) (account_id : String)
    (exclude_allocation_id : Option String) : ℚ :=
  (((get_allocations_for_account s account_id).filter
      (percentages_kept exclude_allocation_id)).map
    (·.allocation_percentage)).sum

/-- Accumulation loops of the validators: a fold whose step either adds a
value determined by the element or leaves the accumulator unchanged equals
the initial value plus the sum of the values of the kept elements. -/
theorem foldl_guarded_sum {α : Type} (step : ℚ → α → ℚ) (kept : α → Bool)
    (f : α → ℚ)
    (hstep : ∀ acc a, step acc a = if kept a then acc + f a else acc) :
    ∀ (l : List α) (init : ℚ),
      l.foldl step init = init + ((l.filter kept).map f).sum := by
  intro l
  induction l with
  | nil => intro init; simp
  | cons a t ih =>
      intro init
      rw [List.foldl_cons, hstep]
      cases h : kept a
      · simp [List.filter_cons, h, ih init]
      · simp [List.filter_cons, h, ih (init + f a), add_assoc]

/-- The loop body of validate_allocation_percentages in guarded-sum form. -/
theorem percentages_step_eq (exclude_allocation_id : Option String) :
    ∀ (acc : ℚ) (a : GoalsAllocation),
      percentages_step exclude_allocation_id acc a =
        if percentages_kept exclude_allocation_id a then
          acc + a.allocation_percentage
        else acc := by
  intro acc a
  cases exclude_allocation_id with
  | none => simp [percentages_step, percentages_kept]
  | some e =>
      by_cases h : a.id = e <;>
        simp [percentages_step, percentages_kept, h]

/-! ### Concrete fixtures used by scenario clauses and witnesses -/

/-- Store of the C1 scenario: one allocation at 60 percent with id A1 on
account ACC1. -/
def store_C1 : Store :=
  { goals := []
    allocations := [
      { id := "A1", percent_allocation := 60, goal_id := "G1",
        account_id := "ACC1", start_date := some "2024-01-01",
        end_date := some "2024-12-31", init_amount := 0,
        allocation_amount := 0, allocation_percentage := 60,
        allocation_date := some "2024-01-01" }] }

/-! ### Claims -/

/-- C1: validate_allocation_percentages fails if and only if the new
percentage plus the sum of allocation_percentage over all of the account's
other stored allocations (no date-range filtering) exceeds 100, reporting
that sum and the account; with one existing allocation at 60 percent,
proposing 50 percent fails and the reported sum is 110 percent. -/
theorem validate_allocation_percentages_spec :
    (∀ (s : Store) (account_id : String) (new_percentage : ℚ)
        (exclude_allocation_id : Option String),
      validate_allocation_percentages s account_id new_percentage
          exclude_allocation_id =
        if new_percentage +
            percentages_other_sum s account_id exclude_allocation_id > 100 then
          Except.error (Error.Validation (ValidationError.InvalidInput
            (ErrMsg.TotalAllocationPercentageExceeds
              (new_percentage +
                percentages_other_sum s account_id exclude_allocation_id)
              account_id)))
        else Except.ok ()) ∧
    validate_allocation_percentages store_C1 "ACC1" 50 none =
      Except.error (Error.Validation (ValidationError.InvalidInput
        (ErrMsg.TotalAllocationPercentageExceeds 110 "ACC1"))) := by
  constructor
  · intro s account_id new_percentage exclude_allocation_id
    simp only [validate_allocation_percentages, percentages_other_sum]
    rw [foldl_guarded_sum (percentages_step exclude_allocation_id)
      (percentages_kept exclude_allocation_id) (·.allocation_percentage)
      (percentages_step_eq exclude_allocation_id)]
  · norm_num [validate_allocation_percentages, get_allocations_for_account,
      store_C1, percentages_step, List.filter, List.foldl]

/-- C5: calculate_segmented_growth equals the sum of
(value_end - value_start) * (percentage / 100), the value of
calculate_allocation_growth, over the segments; it is 0 on the empty list
and additive over concatenation of segment lists. -/
theorem calculate_segmented_growth_additive :
    (∀ segs : List (ℚ × ℚ × ℚ),
      calculate_segmented_growth segs =
        (segs.map (fun t => (t.2.2 - t.2.1) * (t.1 / 100))).sum) ∧
    calculate_segmented_growth [] = 0 ∧
    (∀ xs ys : List (ℚ × ℚ × ℚ),
      calculate_segmented_growth (xs ++ ys) =
        calculate_segmented_growth xs + calculate_segmented_growth ys) := by
  refine ⟨fun segs => ?_, rfl, fun xs ys => ?_⟩
  · simp [calculate_segmented_growth, calculate_allocation_growth]
  · simp [calculate_segmented_growth]

/-- Sum of allocation_amount over all of the account's stored allocations. -/
def allocation_amount_sum (s : Store) (account_id : String) : ℚ :=
  ((get_allocations_for_account s account_id).map (·.allocation_amount)).sum

/-- Store of the C3 scenario: allocations on ACC1 with allocation_amount
totalling 700. -/
def store_C3 : Store :=
  { goals := []
    allocations := [
      { id := "B1", percent_allocation := 0, goal_id := "G1",
        account_id := "ACC1", start_date := none, end_date := none,
        init_amount := 400, allocation_amount := 400,
        allocation_percentage := 40, allocation_date := some "2024-01-01" },
      { id := "B2", percent_allocation := 0, goal_id := "G2",
        account_id := "ACC1", start_date := none, end_date := none,
        init_amount := 300, allocation_amount := 300,
        allocation_percentage := 30, allocation_date := some "2024-02-01" }] }

/-- C3: validate_unallocated_balance fails if and only if the proposed
amount exceeds max(0, current account value minus the allocation_amount sum
of the account's allocations); with value 1000 and 700 already allocated the
unallocated balance is 300, proposing 400 fails and proposing 300
succeeds. -/
theorem validate_unallocated_balance_spec :
    (∀ (s : Store) (account_id : String)
        (allocation_amount current_account_value : ℚ),
      validate_unallocated_balance s account_id allocation_amount
          current_account_value =
        if allocation_amount >
            max 0 (current_account_value - allocation_amount_sum s account_id) then
          Except.error (Error.Validation (ValidationError.InvalidInput
            (ErrMsg.AllocationAmountExceedsUnallocated allocation_amount
              (max 0 (current_account_value - allocation_amount_sum s account_id)))))
        else Except.ok ()) ∧
    get_unallocated_balance store_C3 "ACC1" 1000 = 300 ∧
    validate_unallocated_balance store_C3 "ACC1" 400 1000 =
      Except.error (Error.Validation (ValidationError.InvalidInput
        (ErrMsg.AllocationAmountExceedsUnallocated 400 300))) ∧
    validate_unallocated_balance store_C3 "ACC1" 300 1000 = Except.ok () := by
  refine ⟨fun s account_id allocation_amount current_account_value => ?_, ?_, ?_, ?_⟩
  · simp [validate_unallocated_balance, get_unallocated_balance,
      allocation_amount_sum, max_comm]
  · norm_num [get_unallocated_balance, get_allocations_for_account, store_C3,
      List.filter]
  · norm_num [validate_unallocated_balance, get_unallocated_balance,
      get_allocations_for_account, store_C3, List.filter]
  · norm_num [validate_unallocated_balance, get_unallocated_balance,
      get_allocations_for_account, store_C3, List.filter]

/-- Allocations counted by the loop of validate_historical_allocation:
those whose allocation_date is present and not after the as-of date. -/
def historical_kept (allocation_date : String) (a : GoalsAllocation) : Bool :=
  match a.allocation_date with
  | some alloc_date => str_le alloc_date allocation_date
  | none => false

/-- Sum of init_amount over the account's allocations whose allocation_date
is present and not after the as-of date. -/
def historical_init_sum (s : Store) (account_id allocation_date : String) : ℚ :=
  (((get_allocations_for_account s account_id).filter
      (historical_kept allocation_date)).map (·.init_amount)).sum

/-- The loop body of validate_historical_allocation in guarded-sum form. -/
theorem historical_step_eq (allocation_date : String) :
    ∀ (acc : ℚ) (a : GoalsAllocation),
      historical_step allocation_date acc a =
        if historical_kept allocation_date a then acc + a.init_amount
        else acc := by
  intro acc a
  cases hd : a.allocation_date with
  | none => simp [historical_step, historical_kept, hd]
  | some alloc_date =>
      cases hle : str_le alloc_date allocation_date <;>
        simp [historical_step, historical_kept, hd, hle]

/-- C4: validate_historical_allocation sums init_amount over the account's
allocations whose allocation_date is present and not after the as-of date
(with no deactivation check), adds the proposed amount, and fails if and
only if the total exceeds the account value at that date. -/
theorem validate_historical_allocation_spec (s : Store) (account_id : String)
    (allocation_amount : ℚ) (allocation_date : String)
    (account_value_at_allocation_date : ℚ) :
    validate_historical_allocation s account_id allocation_amount
        allocation_date account_value_at_allocation_date =
      if historical_init_sum s account_id allocation_date + allocation_amount >
          account_value_at_allocation_date then
        Except.error (Error.Validation (ValidationError.InvalidInput
          (ErrMsg.HistoricalAllocationExceedsValue allocation_date
            (historical_init_sum s account_id allocation_date + allocation_amount)
            account_value_at_allocation_date)))
      else Except.ok () := by
  simp only [validate_historical_allocation, historical_init_sum]
  rw [foldl_guarded_sum (historical_step allocation_date)
    (historical_kept allocation_date) (·.init_amount)
    (historical_step_eq allocation_date)]
  simp

/-- Allocations counted by the loop of validate_allocation_conflicts: on the
given account, with both deprecated dates present, whose range overlaps the
proposed range, and not excluded. -/
def conflicts_kept (account_id new_start_date new_end_date : String)
    (exclude_allocation_id : Option String) (a : GoalsAllocation) : Bool :=
  a.account_id == account_id &&
    (match a.start_date, a.end_date with
     | some st, some en => str_le st new_end_date && str_le new_start_date en
     | _, _ => false) &&
    (match exclude_allocation_id with
     | some exclude_id => a.id != exclude_id
     | none => true)

/-- Sum over the counted allocations of the deprecated integer
percent_allocation field, the quantity named by the claim. -/
def conflicts_deprecated_sum (s : Store)
    (account_id new_start_date new_end_date : String)
    (exclude_allocation_id : Option String) : ℚ :=
  (((load_allocations_for_non_achieved_goals s).filter
      (conflicts_kept account_id new_start_date new_end_date
        exclude_allocation_id)).map
    (fun a => (a.percent_allocation : ℚ))).sum

/-- Sum over the counted allocations of the current real-valued
allocation_percentage field, the quantity the code adds. -/
def conflicts_percentage_sum (s : Store)
    (account_id new_start_date new_end_date : String)
    (exclude_allocation_id : Option String) : ℚ :=
  (((load_allocations_for_non_achieved_goals s).filter
      (conflicts_kept account_id new_start_date new_end_date
        exclude_allocation_id)).map
    (·.allocation_percentage)).sum

/-- Store of the C2 counterexample: a non-achieved goal with one allocation
on ACC1 whose deprecated percent is 60 but whose allocation_percentage is
0. -/
def store_C2 : Store :=
  { goals := [
      { id := "G1", title := "goal one", description := none,
        target_amount := 1, is_achieved := false, target_return_rate := none,
        due_date := some "2024-12-31", monthly_investment := none,
        start_date := some "2024-01-01", initial_actual_value := none }]
    allocations := [
      { id := "B1", percent_allocation := 60, goal_id := "G1",
        account_id := "ACC1", start_date := some "2024-01-01",
        end_date := some "2024-12-31", init_amount := 0,
        allocation_amount := 0, allocation_percentage := 0,
        allocation_date := some "2024-01-01" }] }

/-- C2 counterexample: with one overlapping allocation whose deprecated
percent is 60 and allocation_percentage is 0, proposing 50 makes the sum of
the deprecated percents 110, which exceeds 100, yet
validate_allocation_conflicts succeeds: the code does not sum the deprecated
percent field. -/
theorem validate_allocation_conflicts_claim_false :
    (50 : ℚ) + conflicts_deprecated_sum store_C2 "ACC1" "2024-03-01"
        "2024-09-30" none > 100 ∧
    validate_allocation_conflicts store_C2 "ACC1" "2024-03-01" "2024-09-30"
        50 none = Except.ok () := by
  constructor
  · norm_num [conflicts_deprecated_sum, conflicts_kept,
      load_allocations_for_non_achieved_goals, store_C2, List.filter,
      show str_le "2024-01-01" "2024-09-30" = true from rfl,
      show str_le "2024-03-01" "2024-12-31" = true from rfl]
  · norm_num [validate_allocation_conflicts, conflicts_step,
      load_allocations_for_non_achieved_goals, store_C2, List.filter,
      List.foldl,
      show str_le "2024-01-01" "2024-09-30" = true from rfl,
      show str_le "2024-03-01" "2024-12-31" = true from rfl]

/-- The loop body of validate_allocation_conflicts in guarded-sum form. -/
theorem conflicts_step_eq (account_id new_start_date new_end_date : String)
    (exclude_allocation_id : Option String) :
    ∀ (acc : ℚ) (a : GoalsAllocation),
      conflicts_step account_id new_start_date new_end_date
          exclude_allocation_id acc a =
        if conflicts_kept account_id new_start_date new_end_date
            exclude_allocation_id a then
          acc + a.allocation_percentage
        else acc := by
  intro acc a
  by_cases hacc : a.account_id = account_id
  · cases hs : a.start_date with
    | none => simp [conflicts_step, conflicts_kept, hacc, hs]
    | some alloc_start =>
        cases he : a.end_date with
        | none => simp [conflicts_step, conflicts_kept, hacc, hs, he]
        | some alloc_end =>
            cases hov : (str_le alloc_start new_end_date &&
                str_le new_start_date alloc_end)
            · simp [conflicts_step, conflicts_kept, hacc, hs, he, hov]
            · cases exclude_allocation_id with
              | none => simp [conflicts_step, conflicts_kept, hacc, hs, he, hov]
              | some exclude_id =>
                  by_cases hid : a.id = exclude_id <;>
                    simp [conflicts_step, conflicts_kept, hacc, hs, he, hov, hid]
  · simp [conflicts_step, conflicts_kept, hacc]

/-- C2 amended: validate_allocation_conflicts sums new_percent with the
current allocation_percentage field (not the deprecated percent) of every
other allocation of a non-achieved goal on the same account whose deprecated
date range overlaps the proposed range, skipping the excluded allocation,
and fails exactly when that sum exceeds 100 with a message naming the
account and the percentage. -/
theorem validate_allocation_conflicts_amended (s : Store)
    (account_id new_start_date new_end_date : String)
    (new_percent_allocation : Int) (exclude_allocation_id : Option String) :
    validate_allocation_conflicts s account_id new_start_date new_end_date
        new_percent_allocation exclude_allocation_id =
      if (new_percent_allocation : ℚ) +
          conflicts_percentage_sum s account_id new_start_date new_end_date
            exclude_allocation_id > 100 then
        Except.error (Error.Validation (ValidationError.InvalidInput
          (ErrMsg.TotalAllocationExceedsDuringPeriod
            ((new_percent_allocation : ℚ) +
              conflicts_percentage_sum s account_id new_start_date
                new_end_date exclude_allocation_id)
            account_id)))
      else Except.ok () := by
  simp only [validate_allocation_conflicts, conflicts_percentage_sum]
  rw [foldl_guarded_sum
    (conflicts_step account_id new_start_date new_end_date exclude_allocation_id)
    (conflicts_kept account_id new_start_date new_end_date exclude_allocation_id)
    (·.allocation_percentage)
    (conflicts_step_eq account_id new_start_date new_end_date exclude_allocation_id)]

/-- Goal fixture with no start_date, for the C6 witness. -/
def goal_no_start : Goal :=
  { id := "G6", title := "no start", description := none, target_amount := 1,
    is_achieved := false, target_return_rate := none, due_date := none,
    monthly_investment := none, start_date := none,
    initial_actual_value := none }

/-- C6: when the goal has no start_date, calculate_goal_progress_on_date
returns the validation error, for every store, value maps and query date. -/
theorem calculate_goal_progress_requires_start_date (s : Store) (goal : Goal)
    (account_values_at_goal_start current_account_values : List (String × ℚ))
    (query_date : String) (h : goal.start_date = none) :
    calculate_goal_progress_on_date s goal account_values_at_goal_start
        current_account_values query_date =
      Except.error (Error.Validation (ValidationError.InvalidInput
        ErrMsg.GoalMustHaveStartDate)) := by
  simp [calculate_goal_progress_on_date, h]

/-- Witness for C6 at a concrete goal without start_date. -/
theorem calculate_goal_progress_requires_start_date_witness :
    goal_no_start.start_date = none ∧
    calculate_goal_progress_on_date ⟨[], []⟩ goal_no_start [] [] "2024-06-15" =
      Except.error (Error.Validation (ValidationError.InvalidInput
        ErrMsg.GoalMustHaveStartDate)) :=
  ⟨rfl, calculate_goal_progress_requires_start_date ⟨[], []⟩ goal_no_start
    [] [] "2024-06-15" rfl⟩

/-- Activity window test on the deprecated date range: both dates present
and start_date <= query_date <= end_date. -/
def active_on (a : GoalsAllocation) (query_date : String) : Bool :=
  match a.start_date, a.end_date with
  | some st, some en => str_le st query_date && str_le query_date en
  | _, _ => false

/-- The loop of calculate_goal_progress_on_date, as a fold over the pair of
running growth and detail list, equals the mapped detail list and the sum of
its allocated growths. -/
theorem progress_foldl (account_values_at_goal_start
    current_account_values : List (String × ℚ)) :
    ∀ (l : List GoalsAllocation) (g : ℚ) (ds : List AllocationDetail),
      l.foldl (progress_step account_values_at_goal_start
          current_account_values) (g, ds) =
        (g + ((l.map (allocation_detail_of account_values_at_goal_start
            current_account_values)).map (·.allocated_growth)).sum,
         ds ++ l.map (allocation_detail_of account_values_at_goal_start
            current_account_values)) := by
  intro l
  induction l with
  | nil => intro g ds; simp
  | cons a t ih =>
      intro g ds
      rw [List.foldl_cons]
      simp [progress_step, ih, add_assoc]

/-- C8: for a goal with a start_date, calculate_goal_progress_on_date always
succeeds with init_value 0, current_value equal to growth, growth the sum of
allocated_growth over the detail entries, one detail entry per contributing
allocation (account values defaulting to 0 for accounts missing from either
map, inside allocation_detail_of); and when no allocation of the goal is
active on the query date the snapshot has growth 0 and no details rather
than being an error. -/
theorem calculate_goal_progress_snapshot_shape (s : Store) (goal : Goal)
    (account_values_at_goal_start current_account_values : List (String × ℚ))
    (query_date goal_start : String)
    (h : goal.start_date = some goal_start) :
    ∃ snap,
      calculate_goal_progress_on_date s goal account_values_at_goal_start
          current_account_values query_date = Except.ok snap ∧
      snap.init_value = 0 ∧
      snap.current_value = snap.growth ∧
      snap.growth = (snap.allocation_details.map (·.allocated_growth)).sum ∧
      snap.allocation_details =
        ((get_allocations_for_account_on_date s "" query_date).filter
            (fun a => a.goal_id == goal.id)).map
          (allocation_detail_of account_values_at_goal_start
            current_account_values) ∧
      ((∀ a ∈ s.allocations, a.goal_id = goal.id →
          active_on a query_date = false) →
        snap.growth = 0 ∧ snap.allocation_details = []) := by
  refine ⟨{ goal_id := goal.id
            goal_title := goal.title
            query_date := query_date
            init_value := 0
            current_value := ((((get_allocations_for_account_on_date s ""
                query_date).filter (fun a => a.goal_id == goal.id)).map
                (allocation_detail_of account_values_at_goal_start
                  current_account_values)).map (·.allocated_growth)).sum
            growth := ((((get_allocations_for_account_on_date s ""
                query_date).filter (fun a => a.goal_id == goal.id)).map
                (allocation_detail_of account_values_at_goal_start
                  current_account_values)).map (·.allocated_growth)).sum
            allocation_details := ((get_allocations_for_account_on_date s ""
                query_date).filter (fun a => a.goal_id == goal.id)).map
                (allocation_detail_of account_values_at_goal_start
                  current_account_values) },
          ?_, rfl, rfl, rfl, rfl, ?_⟩
  · simp only [calculate_goal_progress_on_date, h]
    rw [progress_foldl]
    simp
  · intro hno
    have hnil : ((get_allocations_for_account_on_date s "" query_date).filter
        (fun a => a.goal_id == goal.id)) = [] := by
      rw [List.filter_eq_nil_iff]
      intro a ha hgoal
      have hsplit : a ∈ s.allocations ∧ (a.account_id == "") = true ∧
          (match a.start_date, a.end_date with
           | some st, some en => str_le st query_date && str_le query_date en
           | _, _ => false) = true := by
        have hcopy := ha
        simp only [get_allocations_for_account_on_date, List.mem_filter,
          Bool.and_eq_true] at hcopy
        exact hcopy
      have hamem : a ∈ s.allocations := hsplit.1
      have hwin : active_on a query_date = true := by
        simpa [active_on] using hsplit.2.2
      have hgl : a.goal_id = goal.id := by simpa using hgoal
      have hfalse := hno a hamem hgl
      rw [hwin] at hfalse
      simp at hfalse
    constructor
    · simp [hnil]
    · simp [hnil]

/-- Goal fixture with a start_date, for the C8 witness. -/
def goal_C8 : Goal :=
  { id := "G8", title := "with start", description := none,
    target_amount := 1, is_achieved := false, target_return_rate := none,
    due_date := none, monthly_investment := none,
    start_date := some "2024-01-01", initial_actual_value := none }

/-- Witness for C8 at a concrete store and goal. -/
theorem calculate_goal_progress_snapshot_shape_witness :
    ∃ snap,
      calculate_goal_progress_on_date ⟨[], []⟩ goal_C8 [] [] "2024-06-15" =
        Except.ok snap ∧
      snap.init_value = 0 ∧
      snap.current_value = snap.growth ∧
      snap.growth = (snap.allocation_details.map (·.allocated_growth)).sum ∧
      snap.allocation_details =
        ((get_allocations_for_account_on_date ⟨[], []⟩ "" "2024-06-15").filter
            (fun a => a.goal_id == goal_C8.id)).map
          (allocation_detail_of [] []) ∧
      ((∀ a ∈ (⟨[], []⟩ : Store).allocations, a.goal_id = goal_C8.id →
          active_on a "2024-06-15" = false) →
        snap.growth = 0 ∧ snap.allocation_details = []) :=
  calculate_goal_progress_snapshot_shape ⟨[], []⟩ goal_C8 [] []
    "2024-06-15" "2024-01-01" rfl

/-- Goal fixture of the C7 scenario. -/
def goal_C7 : Goal :=
  { id := "G1", title := "goal one", description := none, target_amount := 1,
    is_achieved := false, target_return_rate := none,
    due_date := some "2024-12-31", monthly_investment := none,
    start_date := some "2024-01-01", initial_actual_value := none }

/-- Allocation fixture of the C7 scenario: 50 percent, active over the whole
of 2024, on account ACC1. -/
def alloc_C7 : GoalsAllocation :=
  { id := "AL1", percent_allocation := 50, goal_id := "G1",
    account_id := "ACC1", start_date := some "2024-01-01",
    end_date := some "2024-12-31", init_amount := 0, allocation_amount := 0,
    allocation_percentage := 50, allocation_date := some "2024-01-01" }

/-- Store fixture of the C7 scenario. -/
def store_C7 : Store := { goals := [goal_C7], allocations := [alloc_C7] }

/-- C7 divergence: the stored allocation is the goal's unique allocation and
is active on the query date (first conjunct), yet
calculate_goal_progress_on_date returns growth 0 with no allocation details
instead of the growth 200 the scenario requires, because the repository
query at goals_service.rs line 104 is keyed to the empty account id and
matches no allocation. -/
theorem calculate_goal_progress_scenario_divergence :
    get_goal_allocations_on_date store_C7 "G1" "2024-06-15" = [alloc_C7] ∧
    calculate_goal_progress_on_date store_C7 goal_C7
        [("ACC1", 1000)] [("ACC1", 1400)] "2024-06-15" =
      Except.ok
        { goal_id := "G1", goal_title := "goal one",
          query_date := "2024-06-15", init_value := 0, current_value := 0,
          growth := 0, allocation_details := [] } :=
  ⟨rfl, rfl⟩

/-- C9: upsert_goal_allocations writes exactly the batch transformed by the
backfill step, and for every allocation whose goal_id matches a goal of the
freshly loaded goal set, a missing start_date is filled from the goal's
start_date and a missing end_date from the goal's due_date, other dates
being kept. -/
theorem upsert_goal_allocations_backfills (s : Store)
    (batch : List GoalsAllocation) (a : GoalsAllocation) (g : Goal)
    (ha : a ∈ batch) (hg : goal_map_get s.goals a.goal_id = some g) :
    upsert_goal_allocations s batch =
      repo_upsert_goal_allocations s
        (batch.map (backfill_allocation (goal_map_get s.goals))) ∧
    backfill_allocation (goal_map_get s.goals) a ∈
      batch.map (backfill_allocation (goal_map_get s.goals)) ∧
    (backfill_allocation (goal_map_get s.goals) a).start_date =
      (if a.start_date = none then g.start_date else a.start_date) ∧
    (backfill_allocation (goal_map_get s.goals) a).end_date =
      (if a.end_date = none then g.due_date else a.end_date) := by
  refine ⟨rfl, List.mem_map_of_mem _ ha, ?_, ?_⟩
  · by_cases hs : a.start_date = none <;>
      by_cases he : a.end_date = none <;>
        simp [backfill_allocation, hg, hs, he]
  · by_cases hs : a.start_date = none <;>
      by_cases he : a.end_date = none <;>
        simp [backfill_allocation, hg, hs, he]

/-- Goal fixture of the C9 backfill scenario. -/
def goal_C9 : Goal :=
  { id := "G9", title := "goal nine", description := none,
    target_amount := 1, is_achieved := false, target_return_rate := none,
    due_date := some "2025-01-01", monthly_investment := none,
    start_date := some "2024-01-01", initial_actual_value := none }

/-- Allocation fixture of the C9 backfill scenario, with both dates
unset. -/
def alloc_C9 : GoalsAllocation :=
  { id := "AL9", percent_allocation := 0, goal_id := "G9",
    account_id := "ACC9", start_date := none, end_date := none,
    init_amount := 100, allocation_amount := 100,
    allocation_percentage := 10, allocation_date := some "2024-01-01" }

/-- Witness for C9: an allocation with both dates unset whose goal has
start_date 2024-01-01 and due_date 2025-01-01 is persisted with those
dates. -/
theorem upsert_goal_allocations_backfills_witness :
    (upsert_goal_allocations ⟨[goal_C9], []⟩ [alloc_C9] =
      repo_upsert_goal_allocations ⟨[goal_C9], []⟩
        ([alloc_C9].map (backfill_allocation
          (goal_map_get (Store.goals ⟨[goal_C9], []⟩)))) ∧
     backfill_allocation (goal_map_get (Store.goals ⟨[goal_C9], []⟩))
        alloc_C9 ∈
      [alloc_C9].map (backfill_allocation
        (goal_map_get (Store.goals ⟨[goal_C9], []⟩))) ∧
     (backfill_allocation (goal_map_get (Store.goals ⟨[goal_C9], []⟩))
        alloc_C9).start_date =
      (if alloc_C9.start_date = none then goal_C9.start_date
       else alloc_C9.start_date) ∧
     (backfill_allocation (goal_map_get (Store.goals ⟨[goal_C9], []⟩))
        alloc_C9).end_date =
      (if alloc_C9.end_date = none then goal_C9.due_date
       else alloc_C9.end_date)) ∧
    (upsert_goal_allocations ⟨[goal_C9], []⟩ [alloc_C9]).1.allocations =
      [{ alloc_C9 with start_date := some "2024-01-01",
                       end_date := some "2025-01-01" }] :=
  ⟨upsert_goal_allocations_backfills ⟨[goal_C9], []⟩ [alloc_C9] alloc_C9
      goal_C9 (by simp) rfl,
   rfl⟩

/-- C10: the backfill step of upsert_goal_allocations changes only the
start_date and end_date fields, and only when the field is unset and the
goal_id matches a loaded goal; an allocation whose goal_id matches no loaded
goal is left exactly as supplied; every transformed allocation is in the
written batch and every written allocation is counted in the returned row
count. -/
theorem upsert_goal_allocations_frame (s : Store)
    (batch : List GoalsAllocation) (a : GoalsAllocation) (ha : a ∈ batch) :
    ((backfill_allocation (goal_map_get s.goals) a).id = a.id ∧
     (backfill_allocation (goal_map_get s.goals) a).percent_allocation =
       a.percent_allocation ∧
     (backfill_allocation (goal_map_get s.goals) a).goal_id = a.goal_id ∧
     (backfill_allocation (goal_map_get s.goals) a).account_id =
       a.account_id ∧
     (backfill_allocation (goal_map_get s.goals) a).init_amount =
       a.init_amount ∧
     (backfill_allocation (goal_map_get s.goals) a).allocation_amount =
       a.allocation_amount ∧
     (backfill_allocation (goal_map_get s.goals) a).allocation_percentage =
       a.allocation_percentage ∧
     (backfill_allocation (goal_map_get s.goals) a).allocation_date =
       a.allocation_date) ∧
    (a.start_date ≠ none →
      (backfill_allocation (goal_map_get s.goals) a).start_date =
        a.start_date) ∧
    (a.end_date ≠ none →
      (backfill_allocation (goal_map_get s.goals) a).end_date = a.end_date) ∧
    (goal_map_get s.goals a.goal_id = none →
      backfill_allocation (goal_map_get s.goals) a = a) ∧
    backfill_allocation (goal_map_get s.goals) a ∈
      batch.map (backfill_allocation (goal_map_get s.goals)) ∧
    (upsert_goal_allocations s batch).2 = batch.length := by
  refine ⟨?_, ?_, ?_, ?_, List.mem_map_of_mem _ ha, ?_⟩
  · cases hg : goal_map_get s.goals a.goal_id with
    | none => simp [backfill_allocation, hg]
    | some g =>
        by_cases hs : a.start_date = none <;>
          by_cases he : a.end_date = none <;>
            simp [backfill_allocation, hg, hs, he]
  · intro hs
    cases hg : goal_map_get s.goals a.goal_id with
    | none => simp [backfill_allocation, hg]
    | some g =>
        by_cases he : a.end_date = none <;>
          simp [backfill_allocation, hg, hs, he]
  · intro he
    cases hg : goal_map_get s.goals a.goal_id with
    | none => simp [backfill_allocation, hg]
    | some g =>
        by_cases hs : a.start_date = none <;>
          simp [backfill_allocation, hg, hs, he]
  · intro hg
    simp [backfill_allocation, hg]
  · simp [upsert_goal_allocations, repo_upsert_goal_allocations]

/-- Allocation fixture of the C10 witness, whose goal_id matches no loaded
goal. -/
def alloc_C10 : GoalsAllocation :=
  { id := "AL10", percent_allocation := 0, goal_id := "GHOST",
    account_id := "ACC10", start_date := none, end_date := none,
    init_amount := 5, allocation_amount := 5, allocation_percentage := 1,
    allocation_date := none }

/-- Witness for C10 at a concrete unmatched allocation: it reaches the store
exactly as supplied and is written. -/
theorem upsert_goal_allocations_frame_witness :
    (((backfill_allocation (goal_map_get (Store.goals ⟨[], []⟩))
          alloc_C10).id = alloc_C10.id ∧
      (backfill_allocation (goal_map_get (Store.goals ⟨[], []⟩))
          alloc_C10).percent_allocation = alloc_C10.percent_allocation ∧
      (backfill_allocation (goal_map_get (Store.goals ⟨[], []⟩))
          alloc_C10).goal_id = alloc_C10.goal_id ∧
      (backfill_allocation (goal_map_get (Store.goals ⟨[], []⟩))
          alloc_C10).account_id = alloc_C10.account_id ∧
      (backfill_allocation (goal_map_get (Store.goals ⟨[], []⟩))
          alloc_C10).init_amount = alloc_C10.init_amount ∧
      (backfill_allocation (goal_map_get (Store.goals ⟨[], []⟩))
          alloc_C10).allocation_amount = alloc_C10.allocation_amount ∧
      (backfill_allocation (goal_map_get (Store.goals ⟨[], []⟩))
          alloc_C10).allocation_percentage =
        alloc_C10.allocation_percentage ∧
      (backfill_allocation (goal_map_get (Store.goals ⟨[], []⟩))
          alloc_C10).allocation_date = alloc_C10.allocation_date) ∧
     (alloc_C10.start_date ≠ none →
       (backfill_allocation (goal_map_get (Store.goals ⟨[], []⟩))
           alloc_C10).start_date = alloc_C10.start_date) ∧
     (alloc_C10.end_date ≠ none →
       (backfill_allocation (goal_map_get (Store.goals ⟨[], []⟩))
           alloc_C10).end_date = alloc_C10.end_date) ∧
     (goal_map_get (Store.goals ⟨[], []⟩) alloc_C10.goal_id = none →
       backfill_allocation (goal_map_get (Store.goals ⟨[], []⟩)) alloc_C10 =
         alloc_C10) ∧
     backfill_allocation (goal_map_get (Store.goals ⟨[], []⟩)) alloc_C10 ∈
       [alloc_C10].map (backfill_allocation
         (goal_map_get (Store.goals ⟨[], []⟩))) ∧
     (upsert_goal_allocations ⟨[], []⟩ [alloc_C10]).2 = [alloc_C10].length) ∧
    (upsert_goal_allocations ⟨[], []⟩ [alloc_C10]).1.allocations =
      [alloc_C10] :=
  ⟨upsert_goal_allocations_frame ⟨[], []⟩ [alloc_C10] alloc_C10 (by simp),
   rfl⟩

end WealthVn
